import Mathlib

/-!
Verification of the Alexa smart-home lambda (`src/lambda_function.py`).

The Python module is shallowly embedded below.  JSON dictionaries become
structures whose fields are `Option`-typed exactly where the code tolerates a
missing key (a bare `d[k]` access on a possibly-missing key is modelled as a
`match` whose `none` branch raises the generic exception, mirroring Python's
`KeyError`).  The vendor cloud API is modelled as an environment (`Env`)
holding the responses the cloud would deliver for each request the module can
issue, and every handler additionally returns the trace of vendor calls it
performed, so that "exactly one POST" style properties are expressible.
Sentry telemetry is modelled as a boolean: `true` when control reaches the
`SENTRY_CLIENT.captureException()` call site at the end of `lambda_handler`'s
error path.  `messageId` (a fresh UUID) and `timeOfSample` (wall-clock time)
are nondeterministic environment reads with no logical content and are not
modelled.
-/

set_option linter.unusedVariables false

/-- A vendor ("Gooee") meta value: the module only ever feeds numbers and
booleans through the translation table. -/
inductive GVal where
  | i (v : Int)
  | b (v : Bool)
deriving DecidableEq, Repr

/-- Python truthiness of a `GVal`, as used by `lambda val: 'ON' if val else 'OFF'`. -/
def GVal.truthy : GVal → Bool
  | .i v => v ≠ 0
  | .b v => v

/-- An Alexa-side property value: string, number, boolean, or a one-key object
such as the `{"value": "OK"}` wrapper produced for `connectivity`. -/
inductive AVal where
  | s (v : String)
  | i (v : Int)
  | b (v : Bool)
  | obj1 (key : String) (v : AVal)
deriving DecidableEq, Repr

/-- Identity pass-through of a vendor value into an Alexa value
(`lambda val: val`). -/
def gToA : GVal → AVal
  | .i v => .i v
  | .b v => .b v

/-- Table `CAPABILITY_TO_META`: map of Amazon's device capabilities to Gooee's
device meta values, each with its conversion lambda (lines 52-59). -/
def CAPABILITY_TO_META : String → Option (String × (GVal → AVal))
  | "powerState" => some ("onoff", fun val => .s (if val.truthy then "ON" else "OFF"))
  | "brightness" => some ("dim", gToA)
  | "powerLevel" => some ("dim", gToA)
  | "percentage" => some ("dim", gToA)
  | "connectivity" => some ("is_online",
      fun val => .obj1 "value" (.s (if val.truthy then "OK" else "UNREACHABLE")))
  | _ => none

/-- The exceptions the module defines (lines 62-75) plus `generic` covering
`raise Exception` and Python-level errors (`KeyError`, `TypeError`). -/
inductive Exc where
  | auth (msg : String)               -- AuthException
  | badRequest (msg : String)         -- BadRequestException
  | parentSpace (msg : String)        -- ParentSpaceException
  | metaNotAvailable (msg : String)   -- MetaNotAvailableException
  | generic
deriving DecidableEq, Repr

/-- Model of `directive.endpoint.scope` / `directive.payload.scope`: the code only ever
reads `['token']`. -/
structure BScope where
  token : String
deriving DecidableEq, Repr

/-- Model of `directive.endpoint`: `endpointId` is read unconditionally; `scope` and
`cookie` are dictionary keys whose absence raises `KeyError`. -/
structure DEndpoint where
  endpointId : String
  scope : Option BScope
  cookieType : Option String   -- endpoint['cookie']['type']
deriving DecidableEq, Repr

/-- Model of `directive.header`.  Only `namespace`, `name` and `correlationToken` are
read by the code. -/
structure DHeader where
  ns : String
  name : String
  correlationToken : Option String
deriving DecidableEq, Repr

/-- Model of `directive.payload`: the keys the module reads (`scope.token` for
discovery, `brightness` / `brightnessDelta` for the brightness handler). -/
structure DPayload where
  scope : Option BScope
  brightness : Option Int
  brightnessDelta : Option Int
deriving DecidableEq, Repr

/-- An inbound directive, i.e. `request['directive']`. -/
structure Directive where
  header : DHeader
  endpoint : Option DEndpoint
  payload : DPayload
deriving DecidableEq, Repr

/-- One member entry of a space's `device_states` response: the per-device
`{dim, onoff}` record the aggregation Counter consumes. -/
structure MemberState where
  dim : Int
  onoff : Bool
deriving DecidableEq, Repr

/-- Model of `capability['properties']`: `retrievable` flag and the names of the
`supported` entries. -/
structure CapProps where
  retrievable : Bool
  supported : List String
deriving DecidableEq, Repr

/-- One entry of a template's `capabilities` list.  A missing `properties`
key makes the report-state loop skip the capability (KeyError branch). -/
structure Capability where
  interface : String
  properties : Option CapProps
deriving DecidableEq, Repr

/-- A capability-descriptor template (`space-template.json` /
`device-template.json`): only its `capabilities` list is inspected by the
logic; the rest is copied verbatim into discovery endpoints. -/
structure Template where
  capabilities : List Capability
deriving DecidableEq, Repr

/-- An `{id, name}` record from the discovery list fetches. -/
structure NameId where
  id : String
  name : String
deriving DecidableEq, Repr

/-- The vendor cloud, modelled as the responses it would return for each
request the module can issue during one directive (each directive issues at
most one request per category).  `Except` results model `g_get_request`
either returning data or raising the classified exception. -/
structure Env where
  postStatus : Nat                                  -- HTTP status of POST /actions
  spacesList : Except Exc (List NameId)             -- GET /spaces/?_include=id,name
  devicesList : Except Exc (List NameId)            -- GET /devices/?_include=name,id&type__in=wim,bulb
  deviceMeta : Except Exc (List (String × GVal))    -- GET /devices/{id} (its meta list, as name/value pairs)
  spaceStates : Except Exc (List MemberState)       -- GET /spaces/{id}/device_states (its states values)
  spaceTemplate : Template                          -- SPACE_TEMPLATE (space-template.json)
  deviceTemplate : Template                         -- DEVICE_TEMPLATE (device-template.json)

/-- The action payload POSTed to `/actions`.  `payload[type_] = endpoint`
writes under a key named by the directive's cookie type; that dynamic entry is
`epKey`/`epId`.  `value` is the small `{level/delta/transition_time}` dict. -/
structure ActionPayload where
  name : String
  type_ : String
  value : List (String × Int)
  epKey : String
  epId : String
  origin : Option String
deriving DecidableEq, Repr

/-- One outbound vendor call, for call-trace properties. -/
inductive VendorCall where
  | get (path : String)
  | post (payload : ActionPayload)
deriving DecidableEq, Repr

/-- Status classification shared by both gateway functions (lines 162-165 and
183-186): 401/403 raise `AuthException`, 400/404 raise `BadRequestException`,
anything else passes through. -/
def classifyStatus (status : Nat) : Option Exc :=
  if status = 401 ∨ status = 403 then some (.auth "Auth error")
  else if status = 400 ∨ status = 404 then some (.badRequest "Device or Space not found")
  else none

/-- Function `g_post_action_request` (lines 150-168): stamps `origin: "alexa"` on the
payload, POSTs it, and classifies the response status.  Returns the payload
as actually sent together with the outcome. -/
def g_post_action_request (payload : ActionPayload) (key : String) (status : Nat) :
    ActionPayload × Except Exc Unit :=
  let stamped := { payload with origin := some "alexa" }
  match classifyStatus status with
  | some e => (stamped, .error e)
  | none => (stamped, .ok ())

/-- A JSON body as the GET gateway sees it: `res.json()` is either a list
(concatenated across pages) or a single object; the same type also serves as
the loop's `data` accumulator, which starts as the empty list. -/
inductive GBody (α : Type) where
  | list (items : List α)
  | obj (value : α)
deriving DecidableEq, Repr

/-- One page of a paginated vendor GET: the HTTP status the vendor answers
and the JSON body it serves. -/
structure Page (α : Type) where
  status : Nat
  body : GBody α
deriving DecidableEq, Repr

/-- The `while url` pagination loop of `g_get_request` (lines 181-188): each
page's status is classified first (401/403 and 400/404 raise before any data
handling); then `data = data + res.json() if isinstance(res.json(), list)
else res.json()` concatenates a list body onto a list accumulator, replaces
the accumulator with an object body, and is a `TypeError` (generic) when a
list body meets an object accumulator. -/
def g_get_pages {α : Type} : List (Page α) → GBody α → Except Exc (GBody α)
  | [], data => .ok data
  | page :: rest, data =>
    match classifyStatus page.status with
    | some e => .error e
    | none =>
      match data, page.body with
      | .list acc, .list items => g_get_pages rest (.list (acc ++ items))
      | _, .obj v => g_get_pages rest (.obj v)
      | .obj _, .list _ => .error .generic

/-- `g_get_request` (lines 171-192): drain the chain of pages the vendor
serves for `endpoint` (the `next` link relation is represented by the page
list itself), starting from the empty `data` list.  The environment's
`Except`-typed fetch results are exactly what this function delivers. -/
def g_get_request {α : Type} (endpoint key : String) (pages : List (Page α)) :
    Except Exc (GBody α) :=
  g_get_pages pages (.list [])

/-- Reading the GET result as a JSON object, as `gooee_response['meta']` and
`gooee_response['states']` do (lines 199 and 206): a raised exception passes
through, an object body is the object, and string-indexing a list body is a
`TypeError` (generic). -/
def asObj {α : Type} : Except Exc (GBody α) → Except Exc α
  | .error e => .error e
  | .ok (.obj v) => .ok v
  | .ok (.list _) => .error .generic

/-- Python-dict lookup on a name/value list built left to right: a later
binding of the same key overwrites an earlier one. -/
def dlookup (l : List (String × GVal)) (k : String) : Option GVal :=
  l.reverse.lookup k

/-- Function `g_get_state` (lines 195-219).  For a device, the meta list is reshaped
into a name→value dict.  For any other type the `device_states` collection is
aggregated: `counter['dim']` is the sum of member dims, `counter['onoff']`
the count of true member onoffs; `int(counter['dim'] / len(states))` truncates
the mean toward zero and raises `ZeroDivisionError` → `ParentSpaceException`
on an empty collection; `bool(counter['onoff'])` is true iff some member is
on; `is_online` is hard-coded true. -/
def g_get_state (type_ id_ bearer_token : String) (env : Env) :
    List VendorCall × Except Exc (List (String × GVal)) :=
  if type_ = "device" then
    let call := VendorCall.get ("/" ++ type_ ++ "s/" ++ id_)
    match env.deviceMeta with
    | .error e => ([call], .error e)
    | .ok meta => ([call], .ok meta)
  else
    let call := VendorCall.get ("/" ++ type_ ++ "s/" ++ id_ ++ "/device_states")
    match env.spaceStates with
    | .error e => ([call], .error e)
    | .ok states =>
      if states.length = 0 then
        ([call], .error (.parentSpace "State Reporting not supported on this Space."))
      else
        let dimSum : Int := (states.map MemberState.dim).sum
        let onCount : Nat := (states.filter MemberState.onoff).length
        ([call], .ok [("dim", .i (Int.tdiv dimSum states.length)),
                      ("onoff", .b (onCount != 0)),
                      ("is_online", .b true)])

/-- The `scope` object echoed in response `event.endpoint` blocks
(`{'type': 'BearerToken', 'token': ...}`). -/
structure RScope where
  type_ : String
  token : String
deriving DecidableEq, Repr

/-- Model of `event.endpoint` of a response.  The dispatcher's error envelope carries
only `endpointId` (no scope). -/
structure REndpoint where
  scope : Option RScope
  endpointId : String
deriving DecidableEq, Repr

/-- Model of `event.header` of a response.  `messageId` (fresh UUID) is not modelled. -/
structure RHeader where
  ns : String
  name : String
  payloadVersion : String
  correlationToken : Option String
deriving DecidableEq, Repr

/-- Which static template a discovery endpoint was projected from. -/
inductive TemplateKind where
  | space
  | device
deriving DecidableEq, Repr

/-- One discovery endpoint: a copy of the space/device template with
`friendlyName` and `endpointId` overwritten from the vendor record. -/
structure DiscEndpoint where
  kind : TemplateKind
  friendlyName : String
  endpointId : String
deriving DecidableEq, Repr

/-- One `context.properties` entry.  `timeOfSample` (wall clock) is not
modelled; `uncertaintyInMilliseconds` is the constant 500. -/
structure RProperty where
  ns : String
  name : String
  value : AVal
  uncertaintyInMilliseconds : Int
deriving DecidableEq, Repr

/-- Model of `event.payload` of a response: empty for command responses, `type` and
`message` for error envelopes, `endpoints` for `Discover.Response`. -/
structure RPayload where
  type_ : Option String
  message : Option String
  endpoints : Option (List DiscEndpoint)
deriving DecidableEq, Repr

/-- The empty `'payload': {}` literal. -/
def emptyRPayload : RPayload := { type_ := none, message := none, endpoints := none }

/-- The `event` object of a response. -/
structure REvent where
  header : RHeader
  endpoint : Option REndpoint
  payload : RPayload
deriving DecidableEq, Repr

/-- A full response envelope (`context` is present only on command/state
responses). -/
structure Envelope where
  context : Option (List RProperty)
  event : REvent
deriving DecidableEq, Repr

/-- What a handler (and hence `lambda_handler`) can return: a response
envelope, the bare `[]` list that `handle_discovery` returns when the token is
missing, or Python `None` (the `handle_auth` fall-through). -/
inductive HandlerRet where
  | env (e : Envelope)
  | list (l : List DiscEndpoint)
  | pynone
deriving DecidableEq, Repr

/-- Handler `handle_power_controller` (lines 279-335): build the on/off action
payload, POST it, and optimistically answer `powerState` = `ON`/`OFF` echoing
the directive's correlation token (a direct `['correlationToken']` access:
absence is a `KeyError`).  No state re-fetch. -/
def handle_power_controller (request : Directive) (env : Env) :
    List VendorCall × Except Exc HandlerRet :=
  match request.endpoint with
  | none => ([], .error .generic)
  | some ep =>
    match ep.cookieType, ep.scope with
    | some type_, some scope =>
      let value := if request.header.name = "TurnOn" then "ON" else "OFF"
      -- `value.lower()`: the lowercase of the two possible literals
      let valueLower := if request.header.name = "TurnOn" then "on" else "off"
      let payload : ActionPayload := {
        name := "Alexa " ++ value ++ " request",
        type_ := valueLower,
        value := [("transition_time", 2)],
        epKey := type_,
        epId := ep.endpointId,
        origin := none }
      let (sent, res) := g_post_action_request payload scope.token env.postStatus
      match res with
      | .error e => ([.post sent], .error e)
      | .ok _ =>
        match request.header.correlationToken with
        | none => ([.post sent], .error .generic)
        | some tok =>
          ([.post sent], .ok (.env {
            context := some [{ ns := "Alexa.PowerController", name := "powerState",
                               value := .s value, uncertaintyInMilliseconds := 500 }],
            event := {
              header := { ns := "Alexa", name := "Response", payloadVersion := "3",
                          correlationToken := some tok },
              endpoint := some { scope := some { type_ := "BearerToken", token := scope.token },
                                 endpointId := ep.endpointId },
              payload := emptyRPayload } }))
    | _, _ => ([], .error .generic)

/-- Handler `handle_brightness_controller` (lines 338-401): `brightness` → one POST of
a `dim` action, `brightnessDelta` (only checked when `brightness` is absent) →
one POST of an `adjust` action, neither → no POST; the response then reports
`abs(value)` under the directive's own namespace, raising on `value = None`. -/
def handle_brightness_controller (request : Directive) (env : Env) :
    List VendorCall × Except Exc HandlerRet :=
  match request.endpoint with
  | none => ([], .error .generic)
  | some ep =>
    match ep.scope, ep.cookieType with
    | some scope, some type_ =>
      let build : Option Int → Except Exc HandlerRet := fun value =>
        match value with
        | none => .error .generic   -- abs(None): TypeError
        | some v =>
          match request.header.correlationToken with
          | none => .error .generic
          | some tok =>
            .ok (.env {
              context := some [{ ns := request.header.ns, name := "brightness",
                                 value := .i (abs v), uncertaintyInMilliseconds := 500 }],
              event := {
                header := { ns := "Alexa", name := "Response", payloadVersion := "3",
                            correlationToken := some tok },
                endpoint := some { scope := some { type_ := "BearerToken", token := scope.token },
                                   endpointId := ep.endpointId },
                payload := emptyRPayload } })
      match request.payload.brightness with
      | some v =>
        let payload : ActionPayload := {
          name := "Alexa brightness request",
          type_ := "dim",
          value := [("level", v), ("transition_time", 1)],
          epKey := type_,
          epId := ep.endpointId,
          origin := none }
        let (sent, res) := g_post_action_request payload scope.token env.postStatus
        match res with
        | .error e => ([.post sent], .error e)
        | .ok _ => ([.post sent], build (some v))
      | none =>
        match request.payload.brightnessDelta with
        | some v =>
          let payload : ActionPayload := {
            name := "Alexa brightnessDelta request",
            type_ := "adjust",
            value := [("delta", v), ("transition_time", 1)],
            epKey := type_,
            epId := ep.endpointId,
            origin := none }
          let (sent, res) := g_post_action_request payload scope.token env.postStatus
          match res with
          | .error e => ([.post sent], .error e)
          | .ok _ => ([.post sent], build (some v))
        | none => ([], build none)
    | _, _ => ([], .error .generic)

/-- Handler `handle_auth` (lines 404-420): `AcceptGrant` returns the fixed
acknowledgement (no correlation token); any other name falls through and
returns Python `None`. -/
def handle_auth (request : Directive) : List VendorCall × Except Exc HandlerRet :=
  if request.header.name = "AcceptGrant" then
    ([], .ok (.env {
      context := none,
      event := {
        header := { ns := "Alexa.Authorization", name := "AcceptGrant.Response",
                    payloadVersion := "3", correlationToken := none },
        endpoint := none,
        payload := emptyRPayload } }))
  else ([], .ok .pynone)

/-- Projection of a vendor `{id, name}` record into a discovery endpoint
(template copy with `friendlyName` and `endpointId` overwritten,
lines 241-245 and 257-261). -/
def templateEndpoint (kind : TemplateKind) (item : NameId) : DiscEndpoint :=
  { kind := kind, friendlyName := item.name, endpointId := item.id }

/-- The `Discover.Response` envelope (lines 263-275): no correlation token,
no `event.endpoint`, endpoints in the payload. -/
def discoverResponse (endpoints : List DiscEndpoint) : Envelope :=
  { context := none,
    event := {
      header := { ns := "Alexa.Discovery", name := "Discover.Response",
                  payloadVersion := "3", correlationToken := none },
      endpoint := none,
      payload := { type_ := none, message := none, endpoints := some endpoints } } }

/-- The device half of `handle_discovery` (lines 247-276), entered after the
spaces fetch contributed `acc`: fetch scoped devices, swallowing only
`AuthException`, then wrap everything in a `Discover.Response`. -/
def discovery_devices (env : Env) (callsSoFar : List VendorCall) (acc : List DiscEndpoint) :
    List VendorCall × Except Exc HandlerRet :=
  let call := VendorCall.get "/devices/?_include=name,id&type__in=wim,bulb"
  let calls := callsSoFar ++ [call]
  match env.devicesList with
  | .error (.auth m) => (calls, .ok (.env (discoverResponse acc)))
  | .error e => (calls, .error e)
  | .ok devices =>
    (calls, .ok (.env (discoverResponse (acc ++ devices.map (templateEndpoint .device)))))

/-- Handler `handle_discovery` (lines 222-276): a missing `payload.scope.token`
returns the bare empty list `[]`; otherwise the spaces and devices lists are
fetched independently, each `AuthException` degrading its own category to
nothing, and everything else propagating. -/
def handle_discovery (request : Directive) (env : Env) :
    List VendorCall × Except Exc HandlerRet :=
  match request.payload.scope with
  | none => ([], .ok (.list []))
  | some scope =>
    let call := VendorCall.get "/spaces/?_include=id,name"
    match env.spacesList with
    | .error (.auth m) => discovery_devices env [call] []
    | .error e => ([call], .error e)
    | .ok spaces => discovery_devices env [call] (spaces.map (templateEndpoint .space))

/-- The `for capability in capabilities` loop of `handle_report_state`
(lines 435-461): skip capabilities without a retrievable flag (KeyError) or
with `retrievable` false; otherwise read `supported[0]['name']` (an unguarded
access), look the name up in `CAPABILITY_TO_META` (an unguarded access:
a miss is a `KeyError`, i.e. generic), and translate the vendor field, a
missing field raising `MetaNotAvailableException`. -/
def buildProps (gooee_state : List (String × GVal)) :
    List Capability → Except Exc (List RProperty)
  | [] => .ok []
  | capability :: rest =>
    match capability.properties with
    | none => buildProps gooee_state rest
    | some props =>
      if props.retrievable then
        match props.supported with
        | [] => .error .generic   -- supported[0]: IndexError
        | amz_name :: _ =>
          match CAPABILITY_TO_META amz_name with
          | none => .error .generic   -- CAPABILITY_TO_META[amz_name]: KeyError
          | some (gooee_name, transfunc) =>
            match dlookup gooee_state gooee_name with
            | none => .error (.metaNotAvailable
                "Gooee API not reporting meta for Device/Space")
            | some gval =>
              match buildProps gooee_state rest with
              | .error e => .error e
              | .ok tail =>
                .ok ({ ns := capability.interface, name := amz_name,
                       value := transfunc gval,
                       uncertaintyInMilliseconds := 500 } :: tail)
      else buildProps gooee_state rest

/-- Handler `handle_report_state` (lines 423-487): read the endpoint fields, fetch the
(possibly aggregated) state, build one property per retrievable capability of
the endpoint type's template, and wrap them in a `StateReport` echoing the
correlation token. -/
def handle_report_state (request : Directive) (env : Env) :
    List VendorCall × Except Exc HandlerRet :=
  match request.endpoint with
  | none => ([], .error .generic)
  | some ep =>
    match ep.cookieType, ep.scope with
    | some type_, some scope =>
      let (calls, stRes) := g_get_state type_ ep.endpointId scope.token env
      match stRes with
      | .error e => (calls, .error e)
      | .ok gooee_state =>
        let capabilities := (if type_ = "space" then env.spaceTemplate
                             else env.deviceTemplate).capabilities
        match buildProps gooee_state capabilities with
        | .error e => (calls, .error e)
        | .ok properties =>
          match request.header.correlationToken with
          | none => (calls, .error .generic)
          | some tok =>
            (calls, .ok (.env {
              context := some properties,
              event := {
                header := { ns := "Alexa", name := "StateReport", payloadVersion := "3",
                            correlationToken := some tok },
                endpoint := some { scope := some { type_ := "BearerToken", token := scope.token },
                                   endpointId := ep.endpointId },
                payload := emptyRPayload } }))
    | _, _ => ([], .error .generic)

/-- Overwrite the error payload's `type` and `message` (lines 129-143). -/
def setErrPayload (e : Envelope) (ty msg : String) : Envelope :=
  { e with event := { e.event with payload :=
      { e.event.payload with type_ := some ty, message := some msg } } }

/-- The `try` block of `lambda_handler` (lines 84-97): routing precedence is
by name first (`Discover`, `ReportState`) and then by namespace; an
unrecognized pair is `raise Exception`. -/
def route (request : Directive) (env : Env) :
    List VendorCall × Except Exc HandlerRet :=
  if request.header.name = "Discover" then handle_discovery request env
  else if request.header.name = "ReportState" then handle_report_state request env
  else if request.header.ns = "Alexa.PowerController" then handle_power_controller request env
  else if request.header.ns = "Alexa.BrightnessController" then handle_brightness_controller request env
  else if request.header.ns = "Alexa.Authorization" then handle_auth request
  else ([], .error .generic)   -- raise Exception

/-- Dispatcher `lambda_handler` (lines 78-147): the routed handler plus the
`except Exception as err` conversion into the standard error envelope.  Note
that the correlation token condition tests
`error_response['event']['header'].get('correlationToken')` — the freshly
built header, which never holds one — so its third conjunct is always falsy.
`ParentSpaceException` and `MetaNotAvailableException` return before the
Sentry call site; other errors reach it (second component `true`).  A
directive without an `endpoint` object makes the error path itself raise
`KeyError`, which escapes the lambda: modelled as `none`. -/
def lambda_handler (request : Directive) (env : Env) :
    List VendorCall × Option (HandlerRet × Bool) :=
  match route request env with
  | (calls, .ok r) => (calls, some (r, false))
  | (calls, .error err) =>
    match request.endpoint with
    | none => (calls, none)   -- KeyError on request['directive']['endpoint']
    | some ep =>
      -- the freshly built error header carries no correlationToken, so
      -- `.get('correlationToken')` on it is always None (falsy)
      let errHeaderTok : Option String := none
      let corrTok : Option (Option String) :=
        if request.header.name ≠ "Discover" ∧ request.header.name ≠ "AddOrUpdateReport" ∧
            errHeaderTok.isSome then
          match request.header.correlationToken with
          | none => none          -- would be a KeyError escaping the lambda
          | some t => some (some t)
        else some errHeaderTok
      match corrTok with
      | none => (calls, none)
      | some tok =>
        let base : Envelope := {
          context := none,
          event := {
            header := { ns := "Alexa", name := "ErrorResponse", payloadVersion := "3",
                        correlationToken := tok },
            endpoint := some { scope := none, endpointId := ep.endpointId },
            payload := { type_ := some "INTERNAL_ERROR", message := some "Unhandled Error",
                         endpoints := none } } }
        match err with
        | .badRequest m => (calls, some (.env (setErrPayload base "NO_SUCH_ENDPOINT" m), true))
        | .auth m =>
          (calls, some (.env (setErrPayload base "INVALID_AUTHORIZATION_CREDENTIAL" m), true))
        | .parentSpace m =>
          (calls, some (.env (setErrPayload base "INVALID_DIRECTIVE" m), false))
        | .metaNotAvailable m =>
          (calls, some (.env (setErrPayload base "ENDPOINT_UNREACHABLE" m), false))
        | .generic => (calls, some (.env base, true))

/-! ## Concrete objects for instantiations -/

/-- A benign cloud environment: POST succeeds, fetches return empty data. -/
def env0 : Env :=
  { postStatus := 200, spacesList := .ok [], devicesList := .ok [],
    deviceMeta := .ok [], spaceStates := .ok [],
    spaceTemplate := { capabilities := [] },
    deviceTemplate := { capabilities := [] } }

/-- An empty directive payload. -/
def pl0 : DPayload := { scope := none, brightness := none, brightnessDelta := none }

/-- A directive with an unrecognized namespace/name, carrying a correlation
token (shape of the test fixture `unhandled`). -/
def unhandledDir : Directive :=
  { header := { ns := "unhandled", name := "unhandled", correlationToken := some "tok-1" },
    endpoint := some { endpointId := "appliance-001", scope := none, cookieType := none },
    payload := pl0 }

/-! ## Helper lemmas -/

/-- Truthiness `bool(counter['onoff'])` — a nonzero count of on members — is exactly the
logical OR of the members' `onoff` values. -/
theorem filter_onoff_length_bne_zero (l : List MemberState) :
    ((l.filter MemberState.onoff).length != 0) = l.any MemberState.onoff := by
  induction l with
  | nil => rfl
  | cons a t ih =>
    cases h : a.onoff <;> simp [List.filter_cons, h, ← ih]

/-! ## Claims -/

/-- C1 (refuted on the code): the dispatcher's error envelope never carries a
correlation token, because the guard tests the freshly built response header
(which has none) instead of the request header.  At an unrecognized directive
that carries correlation token "tok-1" and endpoint "appliance-001", the
error envelope's `event.header.correlationToken` is `none`, not
`some "tok-1"` as the claim requires for every non-Discover,
non-AcceptGrant response. -/
theorem error_envelope_drops_correlation_token :
    unhandledDir.header.correlationToken = some "tok-1" ∧
    lambda_handler unhandledDir env0 =
      ([], some (.env {
        context := none,
        event := {
          header := { ns := "Alexa", name := "ErrorResponse", payloadVersion := "3",
                      correlationToken := none },
          endpoint := some { scope := none, endpointId := "appliance-001" },
          payload := { type_ := some "INTERNAL_ERROR", message := some "Unhandled Error",
                       endpoints := none } } }, true)) := by
  constructor
  · rfl
  · decide

/-- C2: for a space whose fetched member-state collection is non-empty,
`g_get_state` returns exactly the record `{dim, onoff, is_online}` with `dim`
the members' dim sum divided by the member count truncated toward zero
(`Int.tdiv`), `onoff` the logical OR of the members' `onoff` values, and
`is_online` hard-coded true. -/
theorem g_get_state_space_aggregation (id_ tok : String) (env : Env)
    (states : List MemberState)
    (hfetch : env.spaceStates = .ok states) (hne : states ≠ []) :
    (g_get_state "space" id_ tok env).2 =
      .ok [("dim", .i (Int.tdiv ((states.map MemberState.dim).sum) states.length)),
           ("onoff", .b (states.any MemberState.onoff)),
           ("is_online", .b true)] := by
  have hlen : states.length ≠ 0 := by
    simpa [List.length_eq_zero] using hne
  simp [g_get_state, hfetch, hlen, filter_onoff_length_bne_zero]

/-- C2 witness: two members with dims 100 and 0, exactly one of them on,
aggregate to `dim = 50`, `onoff = true`, `is_online = true`. -/
theorem g_get_state_space_aggregation_witness :
    (g_get_state "space" "sp-1" "tok"
        { env0 with spaceStates := .ok [⟨100, true⟩, ⟨0, false⟩] }).2 =
      .ok [("dim", .i 50), ("onoff", .b true), ("is_online", .b true)] := by
  have h := g_get_state_space_aggregation "sp-1" "tok"
    { env0 with spaceStates := .ok [⟨100, true⟩, ⟨0, false⟩] }
    [⟨100, true⟩, ⟨0, false⟩] rfl (by decide)
  simpa using h

/-- C3: expected-condition errors.  (a) A report-state directive on a space
whose fetched member-state collection is empty produces an error envelope of
type `INVALID_DIRECTIVE` with no telemetry report (second component `false`) —
the `ZeroDivisionError` is converted, never unhandled.  (b) A report-state
directive on a device whose fetched state lacks the vendor field required by a
retrievable capability produces an error envelope of type
`ENDPOINT_UNREACHABLE`, again unreported; the head-capability case of the
raising loop is verified alongside. -/
theorem expected_condition_errors :
    (∀ (dir : Directive) (env : Env) (ep : DEndpoint) (sc : BScope),
      dir.header.name = "ReportState" → dir.endpoint = some ep →
      ep.cookieType = some "space" → ep.scope = some sc →
      env.spaceStates = .ok [] →
      ∃ e, (lambda_handler dir env).2 = some (.env e, false) ∧
        e.event.header.name = "ErrorResponse" ∧
        e.event.payload.type_ = some "INVALID_DIRECTIVE") ∧
    (∀ (gooee_state : List (String × GVal)) (cap : Capability) (restCaps : List Capability)
        (ps : CapProps) (amz : String) (restSupported : List String)
        (gname : String) (tf : GVal → AVal),
      cap.properties = some ps → ps.retrievable = true →
      ps.supported = amz :: restSupported →
      CAPABILITY_TO_META amz = some (gname, tf) →
      dlookup gooee_state gname = none →
      buildProps gooee_state (cap :: restCaps) =
        .error (.metaNotAvailable "Gooee API not reporting meta for Device/Space")) ∧
    (∀ (dir : Directive) (env : Env) (ep : DEndpoint) (sc : BScope)
        (meta : List (String × GVal)) (m : String),
      dir.header.name = "ReportState" → dir.endpoint = some ep →
      ep.cookieType = some "device" → ep.scope = some sc →
      env.deviceMeta = .ok meta →
      buildProps meta env.deviceTemplate.capabilities = .error (.metaNotAvailable m) →
      ∃ e, (lambda_handler dir env).2 = some (.env e, false) ∧
        e.event.header.name = "ErrorResponse" ∧
        e.event.payload.type_ = some "ENDPOINT_UNREACHABLE") := by
  refine ⟨?_, ?_, ?_⟩
  · intro dir env ep sc hname hep hck hsc hstates
    refine ⟨{ context := none, event := {
        header := { ns := "Alexa", name := "ErrorResponse", payloadVersion := "3",
                    correlationToken := none },
        endpoint := some { scope := none, endpointId := ep.endpointId },
        payload := { type_ := some "INVALID_DIRECTIVE",
                     message := some "State Reporting not supported on this Space.",
                     endpoints := none } } }, ?_, rfl, rfl⟩
    simp [lambda_handler, route, hname, handle_report_state, hep, hck, hsc, g_get_state, hstates,
      setErrPayload]
  · intro gooee_state cap restCaps ps amz restSupported gname tf hprops hret hsup hmeta hlook
    simp [buildProps, hprops, hret, hsup, hmeta, hlook]
  · intro dir env ep sc meta m hname hep hck hsc hmeta hbuild
    refine ⟨{ context := none, event := {
        header := { ns := "Alexa", name := "ErrorResponse", payloadVersion := "3",
                    correlationToken := none },
        endpoint := some { scope := none, endpointId := ep.endpointId },
        payload := { type_ := some "ENDPOINT_UNREACHABLE",
                     message := some m,
                     endpoints := none } } }, ?_, rfl, rfl⟩
    simp [lambda_handler, route, hname, handle_report_state, hep, hck, hsc, g_get_state, hmeta,
      hbuild, setErrPayload]

/-- C3 witness: a concrete empty space and a concrete device template whose
retrievable `powerState` capability finds no `onoff` field in the meta. -/
theorem expected_condition_errors_witness :
    (∃ e, (lambda_handler
        { header := { ns := "Alexa", name := "ReportState", correlationToken := some "c1" },
          endpoint := some { endpointId := "sp-1", scope := some { token := "k" },
                             cookieType := some "space" },
          payload := pl0 }
        { env0 with spaceStates := .ok [] }).2 = some (.env e, false) ∧
      e.event.header.name = "ErrorResponse" ∧
      e.event.payload.type_ = some "INVALID_DIRECTIVE") ∧
    buildProps [("dim", .i 3)]
        [{ interface := "Alexa.PowerController",
           properties := some { retrievable := true, supported := ["powerState"] } }] =
      .error (.metaNotAvailable "Gooee API not reporting meta for Device/Space") ∧
    (∃ e, (lambda_handler
        { header := { ns := "Alexa", name := "ReportState", correlationToken := some "c1" },
          endpoint := some { endpointId := "dev-1", scope := some { token := "k" },
                             cookieType := some "device" },
          payload := pl0 }
        { env0 with deviceMeta := .ok [("dim", .i 3)],
                    deviceTemplate := { capabilities :=
                      [{ interface := "Alexa.PowerController",
                         properties := some { retrievable := true,
                                              supported := ["powerState"] } }] } }).2 =
      some (.env e, false) ∧
      e.event.header.name = "ErrorResponse" ∧
      e.event.payload.type_ = some "ENDPOINT_UNREACHABLE") := by
  refine ⟨?_, ?_, ?_⟩
  · exact expected_condition_errors.1 _ _ _ _ rfl rfl rfl rfl rfl
  · exact expected_condition_errors.2.1 [("dim", .i 3)] _ [] _ "powerState" [] "onoff" _
      rfl rfl rfl rfl (by decide)
  · exact expected_condition_errors.2.2 _ _ _ _ [("dim", .i 3)] _ rfl rfl rfl rfl rfl
      (expected_condition_errors.2.1 [("dim", .i 3)] _ [] _ "powerState" [] "onoff" _
        rfl rfl rfl rfl (by decide))

/-- C4: a `Discover` directive whose payload has no `scope.token` makes the
whole lambda return the bare empty endpoint list, with no vendor call, no
error envelope, and no telemetry report. -/
theorem discovery_without_token_returns_empty_list (dir : Directive) (env : Env)
    (hname : dir.header.name = "Discover") (hscope : dir.payload.scope = none) :
    lambda_handler dir env = ([], some (.list [], false)) := by
  simp [lambda_handler, route, hname, handle_discovery, hscope]

/-- C4 witness: a concrete tokenless discovery request. -/
theorem discovery_without_token_returns_empty_list_witness :
    lambda_handler
      { header := { ns := "Alexa.Discovery", name := "Discover", correlationToken := none },
        endpoint := none, payload := pl0 } env0 = ([], some (.list [], false)) :=
  discovery_without_token_returns_empty_list _ _ rfl rfl

/-- C5: discovery degrades per category on auth failure.  If the spaces fetch
raises `AuthException`, the response is a `Discover.Response` holding exactly
the device endpoints; if the devices fetch raises `AuthException`, it holds
exactly the space endpoints.  Either way both fetches are attempted, the
result is a success envelope (the error never reaches the dispatcher's error
path), and no telemetry is reported. -/
theorem discovery_degrades_on_auth_error :
    (∀ (dir : Directive) (env : Env) (sc : BScope) (m : String) (devices : List NameId),
      dir.header.name = "Discover" → dir.payload.scope = some sc →
      env.spacesList = .error (.auth m) → env.devicesList = .ok devices →
      lambda_handler dir env =
        ([.get "/spaces/?_include=id,name", .get "/devices/?_include=name,id&type__in=wim,bulb"],
         some (.env (discoverResponse (devices.map (templateEndpoint .device))), false))) ∧
    (∀ (dir : Directive) (env : Env) (sc : BScope) (m : String) (spaces : List NameId),
      dir.header.name = "Discover" → dir.payload.scope = some sc →
      env.spacesList = .ok spaces → env.devicesList = .error (.auth m) →
      lambda_handler dir env =
        ([.get "/spaces/?_include=id,name", .get "/devices/?_include=name,id&type__in=wim,bulb"],
         some (.env (discoverResponse (spaces.map (templateEndpoint .space))), false))) := by
  constructor
  · intro dir env sc m devices hname hscope hsp hdev
    simp [lambda_handler, route, hname, handle_discovery, hscope, hsp, discovery_devices, hdev]
  · intro dir env sc m spaces hname hscope hsp hdev
    simp [lambda_handler, route, hname, handle_discovery, hscope, hsp, discovery_devices, hdev]

/-- C5 witness: one failing category at a time, with one concrete record in
the surviving category. -/
theorem discovery_degrades_on_auth_error_witness :
    lambda_handler
        { header := { ns := "Alexa.Discovery", name := "Discover", correlationToken := none },
          endpoint := none,
          payload := { scope := some { token := "blah" }, brightness := none,
                       brightnessDelta := none } }
        { env0 with spacesList := .error (.auth "Auth error"),
                    devicesList := .ok [{ id := "d-1", name := "test device" }] } =
      ([.get "/spaces/?_include=id,name", .get "/devices/?_include=name,id&type__in=wim,bulb"],
       some (.env (discoverResponse
         [{ kind := .device, friendlyName := "test device", endpointId := "d-1" }]), false)) ∧
    lambda_handler
        { header := { ns := "Alexa.Discovery", name := "Discover", correlationToken := none },
          endpoint := none,
          payload := { scope := some { token := "blah" }, brightness := none,
                       brightnessDelta := none } }
        { env0 with spacesList := .ok [{ id := "s-1", name := "test space" }],
                    devicesList := .error (.auth "Auth error") } =
      ([.get "/spaces/?_include=id,name", .get "/devices/?_include=name,id&type__in=wim,bulb"],
       some (.env (discoverResponse
         [{ kind := .space, friendlyName := "test space", endpointId := "s-1" }]), false)) := by
  constructor
  · have h := discovery_degrades_on_auth_error.1
      { header := { ns := "Alexa.Discovery", name := "Discover", correlationToken := none },
        endpoint := none,
        payload := { scope := some { token := "blah" }, brightness := none,
                     brightnessDelta := none } }
      { env0 with spacesList := .error (.auth "Auth error"),
                  devicesList := .ok [{ id := "d-1", name := "test device" }] }
      { token := "blah" } "Auth error" [{ id := "d-1", name := "test device" }]
      rfl rfl rfl rfl
    simpa using h
  · have h := discovery_degrades_on_auth_error.2
      { header := { ns := "Alexa.Discovery", name := "Discover", correlationToken := none },
        endpoint := none,
        payload := { scope := some { token := "blah" }, brightness := none,
                     brightnessDelta := none } }
      { env0 with spacesList := .ok [{ id := "s-1", name := "test space" }],
                  devicesList := .error (.auth "Auth error") }
      { token := "blah" } "Auth error" [{ id := "s-1", name := "test space" }]
      rfl rfl rfl rfl
    simpa using h

/-- C7: a `TurnOn` directive issues exactly one vendor call — a POST whose
payload has `type = "on"`, `value = {transition_time: 2}`, and the cookie
type as key mapped to the endpointId (stamped `origin: "alexa"` by the
gateway) — and, with no further fetch, answers `powerState = "ON"` echoing
the request's correlation token. -/
theorem turn_on_postcondition (c e k t : String) (pl : DPayload) (env : Env)
    (hpost : classifyStatus env.postStatus = none) :
    lambda_handler
        { header := { ns := "Alexa.PowerController", name := "TurnOn",
                      correlationToken := some c },
          endpoint := some { endpointId := e, scope := some { token := k },
                             cookieType := some t },
          payload := pl } env =
      ([.post { name := "Alexa ON request", type_ := "on", value := [("transition_time", 2)],
                epKey := t, epId := e, origin := some "alexa" }],
       some (.env {
         context := some [{ ns := "Alexa.PowerController", name := "powerState",
                            value := .s "ON", uncertaintyInMilliseconds := 500 }],
         event := {
           header := { ns := "Alexa", name := "Response", payloadVersion := "3",
                       correlationToken := some c },
           endpoint := some { scope := some { type_ := "BearerToken", token := k },
                              endpointId := e },
           payload := emptyRPayload } }, false)) := by
  simp [lambda_handler, route, handle_power_controller, g_post_action_request, hpost]

/-- C7 witness: a concrete `TurnOn` on device "appliance-001". -/
theorem turn_on_postcondition_witness :
    lambda_handler
        { header := { ns := "Alexa.PowerController", name := "TurnOn",
                      correlationToken := some "ctok" },
          endpoint := some { endpointId := "appliance-001", scope := some { token := "k" },
                             cookieType := some "device" },
          payload := pl0 } env0 =
      ([.post { name := "Alexa ON request", type_ := "on", value := [("transition_time", 2)],
                epKey := "device", epId := "appliance-001", origin := some "alexa" }],
       some (.env {
         context := some [{ ns := "Alexa.PowerController", name := "powerState",
                            value := .s "ON", uncertaintyInMilliseconds := 500 }],
         event := {
           header := { ns := "Alexa", name := "Response", payloadVersion := "3",
                       correlationToken := some "ctok" },
           endpoint := some { scope := some { type_ := "BearerToken", token := "k" },
                              endpointId := "appliance-001" },
           payload := emptyRPayload } }, false)) :=
  turn_on_postcondition "ctok" "appliance-001" "k" "device" pl0 env0 (by decide)

/-- C8: brightness postcondition.  An absolute `brightness` value issues
exactly one POST of a `dim` action with `value = {level, transition_time: 1}`;
a `brightnessDelta` (with no absolute value present) issues exactly one POST
of an `adjust` action with `value = {delta, transition_time: 1}`; in both
cases the response's single property carries the absolute value of the field
that was supplied. -/
theorem brightness_postcondition :
    (∀ (c e k t : String) (v : Int) (delta : Option Int) (sc : Option BScope) (env : Env),
      classifyStatus env.postStatus = none →
      lambda_handler
          { header := { ns := "Alexa.BrightnessController", name := "SetBrightness",
                        correlationToken := some c },
            endpoint := some { endpointId := e, scope := some { token := k },
                               cookieType := some t },
            payload := { scope := sc, brightness := some v, brightnessDelta := delta } } env =
        ([.post { name := "Alexa brightness request", type_ := "dim",
                  value := [("level", v), ("transition_time", 1)],
                  epKey := t, epId := e, origin := some "alexa" }],
         some (.env {
           context := some [{ ns := "Alexa.BrightnessController", name := "brightness",
                              value := .i (abs v), uncertaintyInMilliseconds := 500 }],
           event := {
             header := { ns := "Alexa", name := "Response", payloadVersion := "3",
                         correlationToken := some c },
             endpoint := some { scope := some { type_ := "BearerToken", token := k },
                                endpointId := e },
             payload := emptyRPayload } }, false))) ∧
    (∀ (c e k t : String) (v : Int) (sc : Option BScope) (env : Env),
      classifyStatus env.postStatus = none →
      lambda_handler
          { header := { ns := "Alexa.BrightnessController", name := "AdjustBrightness",
                        correlationToken := some c },
            endpoint := some { endpointId := e, scope := some { token := k },
                               cookieType := some t },
            payload := { scope := sc, brightness := none, brightnessDelta := some v } } env =
        ([.post { name := "Alexa brightnessDelta request", type_ := "adjust",
                  value := [("delta", v), ("transition_time", 1)],
                  epKey := t, epId := e, origin := some "alexa" }],
         some (.env {
           context := some [{ ns := "Alexa.BrightnessController", name := "brightness",
                              value := .i (abs v), uncertaintyInMilliseconds := 500 }],
           event := {
             header := { ns := "Alexa", name := "Response", payloadVersion := "3",
                         correlationToken := some c },
             endpoint := some { scope := some { type_ := "BearerToken", token := k },
                                endpointId := e },
             payload := emptyRPayload } }, false))) := by
  constructor
  · intro c e k t v delta sc env hpost
    simp [lambda_handler, route, handle_brightness_controller, g_post_action_request, hpost]
  · intro c e k t v sc env hpost
    simp [lambda_handler, route, handle_brightness_controller, g_post_action_request, hpost]

/-- C8 witness: `SetBrightness(level = 42)` POSTs `value.level = 42` and the
response property value is 42; `AdjustBrightness(delta = -20)` POSTs
`value.delta = -20` and the response property value is 20. -/
theorem brightness_postcondition_witness :
    lambda_handler
        { header := { ns := "Alexa.BrightnessController", name := "SetBrightness",
                      correlationToken := some "ctok" },
          endpoint := some { endpointId := "appliance-001", scope := some { token := "k" },
                             cookieType := some "space" },
          payload := { scope := none, brightness := some 42, brightnessDelta := none } }
        env0 =
      ([.post { name := "Alexa brightness request", type_ := "dim",
                value := [("level", 42), ("transition_time", 1)],
                epKey := "space", epId := "appliance-001", origin := some "alexa" }],
       some (.env {
         context := some [{ ns := "Alexa.BrightnessController", name := "brightness",
                            value := .i 42, uncertaintyInMilliseconds := 500 }],
         event := {
           header := { ns := "Alexa", name := "Response", payloadVersion := "3",
                       correlationToken := some "ctok" },
           endpoint := some { scope := some { type_ := "BearerToken", token := "k" },
                              endpointId := "appliance-001" },
           payload := emptyRPayload } }, false)) ∧
    lambda_handler
        { header := { ns := "Alexa.BrightnessController", name := "AdjustBrightness",
                      correlationToken := some "ctok" },
          endpoint := some { endpointId := "appliance-001", scope := some { token := "k" },
                             cookieType := some "space" },
          payload := { scope := none, brightness := none, brightnessDelta := some (-20) } }
        env0 =
      ([.post { name := "Alexa brightnessDelta request", type_ := "adjust",
                value := [("delta", -20), ("transition_time", 1)],
                epKey := "space", epId := "appliance-001", origin := some "alexa" }],
       some (.env {
         context := some [{ ns := "Alexa.BrightnessController", name := "brightness",
                            value := .i 20, uncertaintyInMilliseconds := 500 }],
         event := {
           header := { ns := "Alexa", name := "Response", payloadVersion := "3",
                       correlationToken := some "ctok" },
           endpoint := some { scope := some { type_ := "BearerToken", token := "k" },
                              endpointId := "appliance-001" },
           payload := emptyRPayload } }, false)) := by
  constructor
  · have h := brightness_postcondition.1 "ctok" "appliance-001" "k" "space" 42 none none
      env0 (by decide)
    simpa using h
  · have h := brightness_postcondition.2 "ctok" "appliance-001" "k" "space" (-20) none
      env0 (by decide)
    simpa using h

/-- C10 (implicit): a brightness-controller directive whose payload carries
neither `brightness` nor `brightnessDelta` issues no vendor POST, and no
normal `Response` is produced: `abs(None)` raises inside the handler and the
dispatcher answers an `ErrorResponse` envelope of type `INTERNAL_ERROR`
(reaching the telemetry call site). -/
theorem brightness_without_value_internal_error (n c e : String)
    (corr : Option String) (sc : Option BScope) (epsc : Option BScope)
    (ck : Option String) (env : Env)
    (hn1 : n ≠ "Discover") (hn2 : n ≠ "ReportState") :
    lambda_handler
        { header := { ns := "Alexa.BrightnessController", name := n,
                      correlationToken := corr },
          endpoint := some { endpointId := e, scope := epsc, cookieType := ck },
          payload := { scope := sc, brightness := none, brightnessDelta := none } } env =
      ([], some (.env {
        context := none,
        event := {
          header := { ns := "Alexa", name := "ErrorResponse", payloadVersion := "3",
                      correlationToken := none },
          endpoint := some { scope := none, endpointId := e },
          payload := { type_ := some "INTERNAL_ERROR", message := some "Unhandled Error",
                       endpoints := none } } }, true)) := by
  cases epsc with
  | none => simp [lambda_handler, route, hn1, hn2, handle_brightness_controller]
  | some s =>
    cases ck with
    | none => simp [lambda_handler, route, hn1, hn2, handle_brightness_controller]
    | some ct => simp [lambda_handler, route, hn1, hn2, handle_brightness_controller]

/-- C10 witness: a concrete `SetBrightness` with an empty payload. -/
theorem brightness_without_value_internal_error_witness :
    lambda_handler
        { header := { ns := "Alexa.BrightnessController", name := "SetBrightness",
                      correlationToken := some "ctok" },
          endpoint := some { endpointId := "appliance-001", scope := some { token := "k" },
                             cookieType := some "space" },
          payload := pl0 } env0 =
      ([], some (.env {
        context := none,
        event := {
          header := { ns := "Alexa", name := "ErrorResponse", payloadVersion := "3",
                      correlationToken := none },
          endpoint := some { scope := none, endpointId := "appliance-001" },
          payload := { type_ := some "INTERNAL_ERROR", message := some "Unhandled Error",
                       endpoints := none } } }, true)) :=
  brightness_without_value_internal_error "SetBrightness" "ctok" "appliance-001"
    (some "ctok") none (some { token := "k" }) (some "space") env0
    (by decide) (by decide)

/-- The retrievable capability set of a descriptor: the `supported[0]` names
of all capabilities whose `properties.retrievable` flag is present and true
(exactly the capabilities the report-state loop keeps). -/
def retrievableNames (caps : List Capability) : List String :=
  caps.filterMap fun c =>
    match c.properties with
    | some ps => if ps.retrievable then ps.supported.head? else none
    | none => none

/-- Every property produced by the report-state loop is named by a retrievable
capability of the descriptor it walked, and its value is the translation
table's conversion of the corresponding vendor field. -/
theorem buildProps_mem (gstate : List (String × GVal)) :
    ∀ (caps : List Capability) (props : List RProperty) (p : RProperty),
      buildProps gstate caps = .ok props → p ∈ props →
      p.name ∈ retrievableNames caps ∧
      ∃ gname tf, CAPABILITY_TO_META p.name = some (gname, tf) ∧
        ∃ gv, dlookup gstate gname = some gv ∧ p.value = tf gv := by
  intro caps
  induction caps with
  | nil =>
    intro props p hb hp
    simp only [buildProps, Except.ok.injEq] at hb
    subst hb
    simp at hp
  | cons cap rest ih =>
    intro props p hb hp
    rw [buildProps] at hb
    cases hcp : cap.properties with
    | none =>
      simp only [hcp] at hb
      have h := ih props p hb hp
      refine ⟨?_, h.2⟩
      simpa [retrievableNames, List.filterMap_cons, hcp] using h.1
    | some ps =>
      cases hr : ps.retrievable with
      | false =>
        have hb' : buildProps gstate rest = .ok props := by
          simpa [hcp, hr] using hb
        have h := ih props p hb' hp
        refine ⟨?_, h.2⟩
        simpa [retrievableNames, List.filterMap_cons, hcp, hr] using h.1
      | true =>
        cases hs : ps.supported with
        | nil => simp [hcp, hr, hs] at hb
        | cons amz tl =>
          cases hm : CAPABILITY_TO_META amz with
          | none => simp [hcp, hr, hs, hm] at hb
          | some gpair =>
            obtain ⟨gname, tf⟩ := gpair
            cases hl : dlookup gstate gname with
            | none => simp [hcp, hr, hs, hm, hl] at hb
            | some gv =>
              cases hbr : buildProps gstate rest with
              | error err => simp [hcp, hr, hs, hm, hl, hbr] at hb
              | ok tail =>
                simp only [hcp, hr, hs, hm, hl, hbr, if_true, Except.ok.injEq] at hb
                subst hb
                rcases List.mem_cons.mp hp with hphead | hptail
                · subst hphead
                  constructor
                  · simp [retrievableNames, List.filterMap_cons, hcp, hr, hs]
                  · exact ⟨gname, tf, hm, gv, hl, rfl⟩
                · have h := ih tail p hbr hptail
                  refine ⟨?_, h.2⟩
                  have hmem := h.1
                  simp only [retrievableNames, List.mem_filterMap] at hmem
                  simp [retrievableNames, List.filterMap_cons, hcp, hr, hs, List.mem_filterMap]
                  exact Or.inr hmem

/-- C9: round-trip invariant of `ReportState`.  Whenever `handle_report_state`
produces a response, every entry of its `context.properties` is named by a
member of the endpoint type's retrievable capability set (loaded from its
static template) and its value is the translation table's conversion function
applied to the corresponding vendor field of the fetched state. -/
theorem report_state_round_trip :
    ∀ (dir : Directive) (env : Env) (ep : DEndpoint) (sc : BScope) (type_ : String)
      (e : Envelope) (props : List RProperty) (p : RProperty),
      dir.endpoint = some ep → ep.cookieType = some type_ → ep.scope = some sc →
      (handle_report_state dir env).2 = .ok (.env e) →
      e.context = some props → p ∈ props →
      ∃ gstate, (g_get_state type_ ep.endpointId sc.token env).2 = .ok gstate ∧
        p.name ∈ retrievableNames
          (if type_ = "space" then env.spaceTemplate else env.deviceTemplate).capabilities ∧
        ∃ gname tf, CAPABILITY_TO_META p.name = some (gname, tf) ∧
          ∃ gv, dlookup gstate gname = some gv ∧ p.value = tf gv := by
  intro dir env ep sc type_ e props p hep hck hsc hrun hctx hp
  rw [handle_report_state] at hrun
  simp only [hep, hck, hsc] at hrun
  rcases hgs : g_get_state type_ ep.endpointId sc.token env with ⟨calls, stRes⟩
  rw [hgs] at hrun
  cases stRes with
  | error err => simp at hrun
  | ok gstate =>
    cases hbp : buildProps gstate
        (if type_ = "space" then env.spaceTemplate else env.deviceTemplate).capabilities with
    | error err => simp [hbp] at hrun
    | ok builtProps =>
      cases hct : dir.header.correlationToken with
      | none => simp [hbp, hct] at hrun
      | some tok =>
        simp only [hbp, hct, Except.ok.injEq, HandlerRet.env.injEq] at hrun
        subst hrun
        simp only [Option.some.injEq] at hctx
        subst hctx
        have h := buildProps_mem gstate _ _ p hbp hp
        exact ⟨gstate, rfl, h.1, h.2⟩

/-- The device capability used in the C9 instantiation. -/
def capC9 : Capability :=
  { interface := "Alexa.PowerController",
    properties := some { retrievable := true, supported := ["powerState"] } }

/-- Environment for the C9 instantiation: a device reporting `onoff = true`,
with a template holding the single retrievable `powerState` capability. -/
def envC9 : Env :=
  { env0 with deviceMeta := .ok [("onoff", .b true)],
              deviceTemplate := { capabilities := [capC9] } }

/-- C9 witness: the `powerState` property of the produced state report is
named in the retrievable capability set and carries the translated `onoff`
field. -/
theorem report_state_round_trip_witness :
    ∃ gstate, (g_get_state "device" "dev-1" "k" envC9).2 = .ok gstate ∧
      "powerState" ∈ retrievableNames
        (if "device" = "space" then envC9.spaceTemplate
         else envC9.deviceTemplate).capabilities ∧
      ∃ gname tf, CAPABILITY_TO_META "powerState" = some (gname, tf) ∧
        ∃ gv, dlookup gstate gname = some gv ∧ AVal.s "ON" = tf gv := by
  have h := report_state_round_trip
    { header := { ns := "Alexa", name := "ReportState", correlationToken := some "ctok" },
      endpoint := some { endpointId := "dev-1", scope := some { token := "k" },
                         cookieType := some "device" },
      payload := pl0 }
    envC9
    { endpointId := "dev-1", scope := some { token := "k" }, cookieType := some "device" }
    { token := "k" } "device"
    { context := some [{ ns := "Alexa.PowerController", name := "powerState",
                         value := .s "ON", uncertaintyInMilliseconds := 500 }],
      event := {
        header := { ns := "Alexa", name := "StateReport", payloadVersion := "3",
                    correlationToken := some "ctok" },
        endpoint := some { scope := some { type_ := "BearerToken", token := "k" },
                           endpointId := "dev-1" },
        payload := emptyRPayload } }
    [{ ns := "Alexa.PowerController", name := "powerState",
       value := .s "ON", uncertaintyInMilliseconds := 500 }]
    { ns := "Alexa.PowerController", name := "powerState",
      value := .s "ON", uncertaintyInMilliseconds := 500 }
    rfl rfl rfl rfl rfl (by decide)
  exact h

/-- C6: vendor status classification end to end.  Both gateway functions
classify a vendor status of 401/403 as `AuthException` and 400/404 as
`BadRequestException` — the POST directly and the paginated GET on the page
carrying that status.  The dispatcher converts an `AuthException`
(resp. `BadRequestException`) escaping any routed handler into an
`ErrorResponse` envelope of type `INVALID_AUTHORIZATION_CREDENTIAL`
(resp. `NO_SUCH_ENDPOINT`) carrying the inbound directive's endpointId and
reaching the telemetry call site; and in every non-discovery directive
family whose handler issues a vendor call, the classified error escapes the
handler: power controller, brightness controller (both payload shapes), and
report-state (device and space branches) — the report-state cases also
composed end to end from the raw GET status through `g_get_request`. -/
theorem vendor_status_classification :
    (∀ (p : ActionPayload) (k : String) (s : Nat), s = 401 ∨ s = 403 →
      (g_post_action_request p k s).2 = .error (.auth "Auth error")) ∧
    (∀ (p : ActionPayload) (k : String) (s : Nat), s = 400 ∨ s = 404 →
      (g_post_action_request p k s).2 =
        .error (.badRequest "Device or Space not found")) ∧
    (∀ (α : Type) (endpoint key : String) (s : Nat) (body : GBody α)
       (rest : List (Page α)), s = 401 ∨ s = 403 →
      g_get_request endpoint key ({ status := s, body := body } :: rest) =
        .error (.auth "Auth error")) ∧
    (∀ (α : Type) (endpoint key : String) (s : Nat) (body : GBody α)
       (rest : List (Page α)), s = 400 ∨ s = 404 →
      g_get_request endpoint key ({ status := s, body := body } :: rest) =
        .error (.badRequest "Device or Space not found")) ∧
    (∀ (dir : Directive) (env : Env) (ep : DEndpoint) (m : String),
      dir.endpoint = some ep → (route dir env).2 = .error (.auth m) →
      ∃ err, (lambda_handler dir env).2 = some (.env err, true) ∧
        err.event.header.name = "ErrorResponse" ∧
        err.event.payload.type_ = some "INVALID_AUTHORIZATION_CREDENTIAL" ∧
        err.event.endpoint = some { scope := none, endpointId := ep.endpointId }) ∧
    (∀ (dir : Directive) (env : Env) (ep : DEndpoint) (m : String),
      dir.endpoint = some ep → (route dir env).2 = .error (.badRequest m) →
      ∃ err, (lambda_handler dir env).2 = some (.env err, true) ∧
        err.event.header.name = "ErrorResponse" ∧
        err.event.payload.type_ = some "NO_SUCH_ENDPOINT" ∧
        err.event.endpoint = some { scope := none, endpointId := ep.endpointId }) ∧
    (∀ (n c e k t : String) (pl : DPayload) (env : Env) (ex : Exc),
      n ≠ "Discover" → n ≠ "ReportState" →
      classifyStatus env.postStatus = some ex →
      (route { header := { ns := "Alexa.PowerController", name := n,
                           correlationToken := some c },
               endpoint := some { endpointId := e, scope := some { token := k },
                                  cookieType := some t },
               payload := pl } env).2 = .error ex) ∧
    (∀ (n c e k t : String) (v : Int) (pl : DPayload) (env : Env) (ex : Exc),
      n ≠ "Discover" → n ≠ "ReportState" →
      pl.brightness = some v ∨ (pl.brightness = none ∧ pl.brightnessDelta = some v) →
      classifyStatus env.postStatus = some ex →
      (route { header := { ns := "Alexa.BrightnessController", name := n,
                           correlationToken := some c },
               endpoint := some { endpointId := e, scope := some { token := k },
                                  cookieType := some t },
               payload := pl } env).2 = .error ex) ∧
    (∀ (nsp e k : String) (corr : Option String) (pl : DPayload) (env : Env) (ex : Exc),
      env.deviceMeta = .error ex →
      (route { header := { ns := nsp, name := "ReportState", correlationToken := corr },
               endpoint := some { endpointId := e, scope := some { token := k },
                                  cookieType := some "device" },
               payload := pl } env).2 = .error ex) ∧
    (∀ (nsp e k type_ : String) (corr : Option String) (pl : DPayload) (env : Env) (ex : Exc),
      type_ ≠ "device" → env.spaceStates = .error ex →
      (route { header := { ns := nsp, name := "ReportState", correlationToken := corr },
               endpoint := some { endpointId := e, scope := some { token := k },
                                  cookieType := some type_ },
               payload := pl } env).2 = .error ex) ∧
    (∀ (nsp e k type_ : String) (corr : Option String) (pl : DPayload) (env : Env)
       (s : Nat) (body : GBody (List MemberState)) (rest : List (Page (List MemberState))),
      s = 401 ∨ s = 403 → type_ ≠ "device" →
      env.spaceStates = asObj (g_get_request
        ("/" ++ type_ ++ "s/" ++ e ++ "/device_states") k
        ({ status := s, body := body } :: rest)) →
      ∃ err, (lambda_handler
          { header := { ns := nsp, name := "ReportState", correlationToken := corr },
            endpoint := some { endpointId := e, scope := some { token := k },
                               cookieType := some type_ },
            payload := pl } env).2 = some (.env err, true) ∧
        err.event.header.name = "ErrorResponse" ∧
        err.event.payload.type_ = some "INVALID_AUTHORIZATION_CREDENTIAL" ∧
        err.event.endpoint = some { scope := none, endpointId := e }) ∧
    (∀ (nsp e k : String) (corr : Option String) (pl : DPayload) (env : Env)
       (s : Nat) (body : GBody (List (String × GVal)))
       (rest : List (Page (List (String × GVal)))),
      s = 400 ∨ s = 404 →
      env.deviceMeta = asObj (g_get_request ("/devices/" ++ e) k
        ({ status := s, body := body } :: rest)) →
      ∃ err, (lambda_handler
          { header := { ns := nsp, name := "ReportState", correlationToken := corr },
            endpoint := some { endpointId := e, scope := some { token := k },
                               cookieType := some "device" },
            payload := pl } env).2 = some (.env err, true) ∧
        err.event.header.name = "ErrorResponse" ∧
        err.event.payload.type_ = some "NO_SUCH_ENDPOINT" ∧
        err.event.endpoint = some { scope := none, endpointId := e }) := by
  refine ⟨?_, ?_, ?_, ?_, ?_, ?_, ?_, ?_, ?_, ?_, ?_, ?_⟩
  · rintro p k s (rfl | rfl) <;> rfl
  · rintro p k s (rfl | rfl) <;> rfl
  · rintro α endpoint key s body rest (rfl | rfl) <;> rfl
  · rintro α endpoint key s body rest (rfl | rfl) <;> rfl
  · intro dir env ep m hep hroute
    rcases hrt : route dir env with ⟨calls, res⟩
    rw [hrt] at hroute
    simp only at hroute
    subst hroute
    refine ⟨{ context := none, event := {
        header := { ns := "Alexa", name := "ErrorResponse", payloadVersion := "3",
                    correlationToken := none },
        endpoint := some { scope := none, endpointId := ep.endpointId },
        payload := { type_ := some "INVALID_AUTHORIZATION_CREDENTIAL",
                     message := some m, endpoints := none } } }, ?_, rfl, rfl, rfl⟩
    simp [lambda_handler, hrt, hep, setErrPayload]
  · intro dir env ep m hep hroute
    rcases hrt : route dir env with ⟨calls, res⟩
    rw [hrt] at hroute
    simp only at hroute
    subst hroute
    refine ⟨{ context := none, event := {
        header := { ns := "Alexa", name := "ErrorResponse", payloadVersion := "3",
                    correlationToken := none },
        endpoint := some { scope := none, endpointId := ep.endpointId },
        payload := { type_ := some "NO_SUCH_ENDPOINT",
                     message := some m, endpoints := none } } }, ?_, rfl, rfl, rfl⟩
    simp [lambda_handler, hrt, hep, setErrPayload]
  · intro n c e k t pl env ex hn1 hn2 hcl
    simp [route, hn1, hn2, handle_power_controller, g_post_action_request, hcl]
  · intro n c e k t v pl env ex hn1 hn2 hpl hcl
    rcases hpl with hv | ⟨hb, hd⟩
    · simp [route, hn1, hn2, handle_brightness_controller, g_post_action_request, hv, hcl]
    · simp [route, hn1, hn2, handle_brightness_controller, g_post_action_request, hb, hd, hcl]
  · intro nsp e k corr pl env ex hmeta
    simp [route, handle_report_state, g_get_state, hmeta]
  · intro nsp e k type_ corr pl env ex htype hsp
    simp [route, handle_report_state, g_get_state, htype, hsp]
  · intro nsp e k type_ corr pl env s body rest hs htype hsp
    have hsp2 : env.spaceStates = .error (.auth "Auth error") := by
      rcases hs with rfl | rfl <;>
        simpa [g_get_request, g_get_pages, classifyStatus, asObj] using hsp
    refine ⟨{ context := none, event := {
        header := { ns := "Alexa", name := "ErrorResponse", payloadVersion := "3",
                    correlationToken := none },
        endpoint := some { scope := none, endpointId := e },
        payload := { type_ := some "INVALID_AUTHORIZATION_CREDENTIAL",
                     message := some "Auth error", endpoints := none } } }, ?_, rfl, rfl, rfl⟩
    simp [lambda_handler, route, handle_report_state, g_get_state, htype, hsp2, setErrPayload]
  · intro nsp e k corr pl env s body rest hs hmeta
    have hmeta2 : env.deviceMeta = .error (.badRequest "Device or Space not found") := by
      rcases hs with rfl | rfl <;>
        simpa [g_get_request, g_get_pages, classifyStatus, asObj] using hmeta
    refine ⟨{ context := none, event := {
        header := { ns := "Alexa", name := "ErrorResponse", payloadVersion := "3",
                    correlationToken := none },
        endpoint := some { scope := none, endpointId := e },
        payload := { type_ := some "NO_SUCH_ENDPOINT",
                     message := some "Device or Space not found",
                     endpoints := none } } }, ?_, rfl, rfl, rfl⟩
    simp [lambda_handler, route, handle_report_state, g_get_state, hmeta2, setErrPayload]

/-- C6 witness: concrete statuses on both gateways (POST 401/404, GET page
401/400), and four dispatcher compositions: a `TurnOn` POST answered 401, a
`SetBrightness` POST answered 401, a space `ReportState` whose GET page
returns 401, and a device `ReportState` whose GET page returns 404. -/
theorem vendor_status_classification_witness :
    (g_post_action_request
        { name := "p", type_ := "on", value := [], epKey := "device", epId := "e",
          origin := none } "k" 401).2 = .error (.auth "Auth error") ∧
    (g_post_action_request
        { name := "p", type_ := "on", value := [], epKey := "device", epId := "e",
          origin := none } "k" 404).2 =
      .error (.badRequest "Device or Space not found") ∧
    g_get_request "/spaces/sp-1/device_states" "k"
        [{ status := 401, body := .obj [(⟨100, true⟩ : MemberState)] }] =
      .error (.auth "Auth error") ∧
    g_get_request "/devices/dev-1" "k"
        [{ status := 400, body := .obj [(("onoff", GVal.b true))] }] =
      .error (.badRequest "Device or Space not found") ∧
    (∃ err, (lambda_handler
        { header := { ns := "Alexa.PowerController", name := "TurnOn",
                      correlationToken := some "ctok" },
          endpoint := some { endpointId := "appliance-001", scope := some { token := "k" },
                             cookieType := some "device" },
          payload := pl0 } { env0 with postStatus := 401 }).2 = some (.env err, true) ∧
      err.event.header.name = "ErrorResponse" ∧
      err.event.payload.type_ = some "INVALID_AUTHORIZATION_CREDENTIAL" ∧
      err.event.endpoint = some { scope := none, endpointId := "appliance-001" }) ∧
    (∃ err, (lambda_handler
        { header := { ns := "Alexa.BrightnessController", name := "SetBrightness",
                      correlationToken := some "ctok" },
          endpoint := some { endpointId := "appliance-001", scope := some { token := "k" },
                             cookieType := some "space" },
          payload := { scope := none, brightness := some 42, brightnessDelta := none } }
        { env0 with postStatus := 401 }).2 = some (.env err, true) ∧
      err.event.header.name = "ErrorResponse" ∧
      err.event.payload.type_ = some "INVALID_AUTHORIZATION_CREDENTIAL" ∧
      err.event.endpoint = some { scope := none, endpointId := "appliance-001" }) ∧
    (∃ err, (lambda_handler
        { header := { ns := "Alexa", name := "ReportState", correlationToken := some "ctok" },
          endpoint := some { endpointId := "sp-1", scope := some { token := "k" },
                             cookieType := some "space" },
          payload := pl0 }
        { env0 with spaceStates := .error (.auth "Auth error") }).2 = some (.env err, true) ∧
      err.event.header.name = "ErrorResponse" ∧
      err.event.payload.type_ = some "INVALID_AUTHORIZATION_CREDENTIAL" ∧
      err.event.endpoint = some { scope := none, endpointId := "sp-1" }) ∧
    (∃ err, (lambda_handler
        { header := { ns := "Alexa", name := "ReportState", correlationToken := some "ctok" },
          endpoint := some { endpointId := "dev-1", scope := some { token := "k" },
                             cookieType := some "device" },
          payload := pl0 }
        { env0 with deviceMeta := .error (.badRequest "Device or Space not found") }).2 =
        some (.env err, true) ∧
      err.event.header.name = "ErrorResponse" ∧
      err.event.payload.type_ = some "NO_SUCH_ENDPOINT" ∧
      err.event.endpoint = some { scope := none, endpointId := "dev-1" }) := by
  refine ⟨?_, ?_, ?_, ?_, ?_, ?_, ?_, ?_⟩
  · exact vendor_status_classification.1 _ "k" 401 (Or.inl rfl)
  · exact vendor_status_classification.2.1 _ "k" 404 (Or.inr rfl)
  · exact vendor_status_classification.2.2.1 _ "/spaces/sp-1/device_states" "k" 401
      (.obj [(⟨100, true⟩ : MemberState)]) [] (Or.inl rfl)
  · exact vendor_status_classification.2.2.2.1 _ "/devices/dev-1" "k" 400
      (.obj [(("onoff", GVal.b true))]) [] (Or.inl rfl)
  · exact vendor_status_classification.2.2.2.2.1 _ { env0 with postStatus := 401 }
      { endpointId := "appliance-001", scope := some { token := "k" },
        cookieType := some "device" } "Auth error" rfl
      (vendor_status_classification.2.2.2.2.2.2.1 "TurnOn" "ctok" "appliance-001" "k"
        "device" pl0 { env0 with postStatus := 401 } (.auth "Auth error")
        (by decide) (by decide) rfl)
  · exact vendor_status_classification.2.2.2.2.1 _ { env0 with postStatus := 401 }
      { endpointId := "appliance-001", scope := some { token := "k" },
        cookieType := some "space" } "Auth error" rfl
      (vendor_status_classification.2.2.2.2.2.2.2.1 "SetBrightness" "ctok" "appliance-001"
        "k" "space" 42
        { scope := none, brightness := some 42, brightnessDelta := none }
        { env0 with postStatus := 401 } (.auth "Auth error")
        (by decide) (by decide) (Or.inl rfl) rfl)
  · exact vendor_status_classification.2.2.2.2.2.2.2.2.2.2.1 "Alexa" "sp-1" "k" "space"
      (some "ctok") pl0 { env0 with spaceStates := .error (.auth "Auth error") } 401
      (.obj [(⟨100, true⟩ : MemberState)]) [] (Or.inl rfl) (by decide) rfl
  · exact vendor_status_classification.2.2.2.2.2.2.2.2.2.2.2 "Alexa" "dev-1" "k"
      (some "ctok") pl0
      { env0 with deviceMeta := .error (.badRequest "Device or Space not found") } 404
      (.obj [(("onoff", GVal.b true))]) [] (Or.inr rfl) rfl
